import Mathlib

/-!
Verification of the asynchronous job-tracking / polling core of
`frontend/src/pages/DataConnector.jsx` (the `DataConnector` React component).

The component's state hooks are embedded as fields of `DCState`, keeping the
source's names (`jobId`, `jobStatus`, `pollingInterval`, `recentJobs`,
`ingestionResult`, `executionMode`, `loading`, plus `testSucceeded` for
`testResult?.success`).  The JavaScript runtime around the component is made
explicit:

* `activeTimers` — the set of live `setInterval` timers, each remembering the
  `jobId` value its callback closure captured and its period in milliseconds;
* `effectCleanup` — the cleanup function registered by the current run of the
  polling `useEffect` (it closes over the `interval` handle it created);
* `inFlight` — pending `getIngestionStatus` fetches started by interval
  callbacks (an interval callback that has passed its `await` keeps running
  even if `clearInterval` was called meanwhile);
* `pollCount` — how many status fetches the interval callbacks have issued.

An `Event` is one atomic segment of handler / callback execution between
suspension points, exactly as the single-threaded browser event loop runs
them.  After every event, React re-renders; the polling effect (whose
dependency array is `[jobId, executionMode]`) re-runs — previous cleanup
first, then the body — iff those dependencies changed, which `step` applies.
A `tick t` event is timer `t`'s period (3000 ms) elapsing and its callback
starting; the callback body after `await getIngestionStatus(jobId)` resolves
in a later `pollOk`/`pollFail` event, as in the source.
-/

inductive Mode
  | sync
  | async
deriving DecidableEq, Repr

/-- A job-status response from `GET /ingestion/status/{jobId}`, with the raw
backend field names used by the component (`status` is kept as a raw string:
the code compares `status.status === 'completed' || status.status === 'failed'`
on the raw value). -/
structure JobStatus where
  job_id : String
  status : String
  error : Option String := none
deriving DecidableEq, Repr

/-- One entry of the `GET /ingestion/jobs` response rendered in the History tab. -/
structure JobSummary where
  job_id : String
  status : String
  started_at : String
deriving DecidableEq, Repr

/-- The `stats` payload displayed by the Results tab (numeric fields are data
passed through for display only). -/
structure Stats where
  databases_processed : Nat
  tables_processed : Nat
  columns_processed : Nat
  duration_seconds : Nat
  errs : List String := []
deriving DecidableEq, Repr

/-- The `ingestionResult` state object built by `handleIngest`. -/
structure IngestResult where
  success : Bool
  message : String
  stats : Option Stats := none
  job_id : Option String := none
deriving DecidableEq, Repr

/-- A live `setInterval` timer: its handle, the `jobId` value captured by its
callback closure, and its period (`3000` ms in the source). -/
structure Timer where
  id : Nat
  capturedJobId : String
  periodMs : Nat
deriving DecidableEq, Repr

/-- An in-flight `getIngestionStatus` request issued from an interval
callback: which timer issued it and for which job id. -/
structure Flight where
  timerId : Nat
  jobId : String
deriving DecidableEq, Repr

/-- The component state plus the runtime bookkeeping described above. -/
structure DCState where
  jobId : Option String
  executionMode : Mode
  jobStatus : Option JobStatus
  pollingInterval : Option Nat
  recentJobs : List JobSummary
  ingestionResult : Option IngestResult
  testSucceeded : Bool
  loading : Bool
  activeTimers : List Timer
  effectCleanup : Option Nat
  nextTimerId : Nat
  inFlight : List Flight
  pollCount : Nat
deriving DecidableEq, Repr

/-- The initial `useState` values of the component (plus empty runtime). -/
def initState : DCState :=
  { jobId := none
    executionMode := Mode.sync
    jobStatus := none
    pollingInterval := none
    recentJobs := []
    ingestionResult := none
    testSucceeded := false
    loading := false
    activeTimers := []
    effectCleanup := none
    nextTimerId := 0
    inFlight := []
    pollCount := 0 }

/-- `clearInterval(t)`: the timer with handle `t` stops firing (a no-op on an
already-cleared handle). -/
def clearTimer (ts : List Timer) (t : Nat) : List Timer :=
  ts.filter (fun tm => tm.id ≠ t)

/-- The timers remaining after the previous effect run's cleanup
(`return () => { if (interval) clearInterval(interval) }`) executes. -/
def afterCleanup (s : DCState) : List Timer :=
  match s.effectCleanup with
  | some t => clearTimer s.activeTimers t
  | none => s.activeTimers

/-- One run of the polling `useEffect` (source lines 149–172): previous
cleanup, then — only when `jobId && executionMode === 'async'` — a fresh
`setInterval(..., 3000)` whose handle is stored in `pollingInterval` and in
the new cleanup closure.  When the guard fails the body arms nothing and
registers no cleanup (and `pollingInterval` is left as it was). -/
def runPollingEffect (s : DCState) : DCState :=
  match s.jobId, s.executionMode with
  | some jid, Mode.async =>
      { s with
        activeTimers :=
          afterCleanup s ++ [{ id := s.nextTimerId, capturedJobId := jid, periodMs := 3000 }]
        nextTimerId := s.nextTimerId + 1
        pollingInterval := some s.nextTimerId
        effectCleanup := some s.nextTimerId }
  | _, _ => { s with activeTimers := afterCleanup s, effectCleanup := none }

/-- One atomic segment of execution on the browser's event loop. -/
inductive Event
  /-- the user switches the Execution Mode radio (`setExecutionMode`). -/
  | setMode (m : Mode)
  /-- `handleTestConnection` completes; `ok` is `testResult.success`. -/
  | testConn (ok : Bool)
  /-- `handleIngest` up to its first `await`: the `testResult?.success` guard,
  then `setLoading(true); setIngestionResult(null); setJobStatus(null);
  setJobId(null)` and the start request goes out. -/
  | ingestStart
  /-- the sync-mode `runIngestionSync` request resolves with `{message, stats}`. -/
  | ingestSyncOk (msg : String) (stats : Stats)
  /-- the async-mode `runIngestionAsync` request resolves with `{job_id}`. -/
  | ingestAsyncOk (jid : String)
  /-- the start request rejects; the `catch` block surfaces `msg`. -/
  | ingestFail (msg : String)
  /-- `viewJobDetails(jid)` whose one-shot `getIngestionStatus` resolved with
  `resp`: `setJobId(jid); setJobStatus(resp); setActiveTab('results')`. -/
  | viewJob (jid : String) (resp : JobStatus)
  /-- `viewJobDetails` whose fetch rejected: only `console.error`. -/
  | viewJobFail (jid : String)
  /-- timer `t`'s 3000 ms period elapses: its callback starts and issues
  `getIngestionStatus` for the captured job id. -/
  | tick (t : Nat)
  /-- the `i`-th in-flight status fetch resolves with `resp`; when the new
  status is terminal the callback also awaits `loadRecentJobs()`, whose
  outcome is `jobsResp` (`none` = list fetch rejected; `some jf` = resolved,
  `jf` the optional `jobs` field). -/
  | pollOk (i : Nat) (resp : JobStatus) (jobsResp : Option (Option (List JobSummary)))
  /-- the `i`-th in-flight status fetch rejects: the `catch` only logs. -/
  | pollFail (i : Nat)
  /-- a standalone `loadRecentJobs()` (mount effect or the History tab's
  Refresh button) resolves; `jobsField` is the optional `jobs` field. -/
  | refreshOk (jobsField : Option (List JobSummary))
  /-- a standalone `loadRecentJobs()` rejects: only `console.error`. -/
  | refreshFail

/-- The `ingestionResult` set when the `testResult?.success` guard fails. -/
def guardFailResult : IngestResult :=
  { success := false
    message := "Please test the connection first and ensure it is successful." }

/-- The `ingestionResult` set when `runIngestionSync` resolves. -/
def syncOkResult (msg : String) (stats : Stats) : IngestResult :=
  { success := true, message := msg, stats := some stats }

/-- The `ingestionResult` set when `runIngestionAsync` resolves with `jid`. -/
def asyncOkResult (jid : String) : IngestResult :=
  { success := true
    message := "Ingestion job started. Monitoring progress..."
    job_id := some jid }

/-- The `ingestionResult` set by `handleIngest`'s `catch` block. -/
def ingestFailResult (msg : String) : IngestResult :=
  { success := false, message := msg }

/-- `setRecentJobs(response.jobs || [])` on success, list unchanged on failure. -/
def applyListJobs (s : DCState) (r : Option (Option (List JobSummary))) : DCState :=
  match r with
  | none => s
  | some jf => { s with recentJobs := jf.getD [] }

/-- The state changes an event's handler segment performs, before React
re-renders (the effect re-run is applied separately by `step`). -/
def rawStep (s : DCState) (e : Event) : DCState :=
  match e with
  | .setMode m => { s with executionMode := m }
  | .testConn ok => { s with testSucceeded := ok }
  | .ingestStart =>
      if s.loading then s  -- the submit button is disabled while loading
      else if s.testSucceeded then
        { s with loading := true, ingestionResult := none, jobStatus := none, jobId := none }
      else
        { s with ingestionResult := some guardFailResult }
  | .ingestSyncOk msg stats =>
      if s.loading then
        { s with loading := false, ingestionResult := some (syncOkResult msg stats) }
      else s
  | .ingestAsyncOk jid =>
      if s.loading then
        { s with loading := false, jobId := some jid,
                 ingestionResult := some (asyncOkResult jid) }
      else s
  | .ingestFail msg =>
      if s.loading then
        { s with loading := false, ingestionResult := some (ingestFailResult msg) }
      else s
  | .viewJob jid resp => { s with jobId := some jid, jobStatus := some resp }
  | .viewJobFail _ => s
  | .tick t =>
      match s.activeTimers.find? (fun tm => tm.id = t) with
      | some tm =>
          { s with inFlight := s.inFlight ++ [{ timerId := tm.id, jobId := tm.capturedJobId }]
                   pollCount := s.pollCount + 1 }
      | none => s
  | .pollOk i resp jobsResp =>
      match s.inFlight[i]? with
      | none => s
      | some f =>
          -- the callback continuation after `await getIngestionStatus(jobId)`:
          -- `setJobStatus(status)` runs with no check that `jobId` is still watched
          let s1 := { s with inFlight := s.inFlight.eraseIdx i, jobStatus := some resp }
          if resp.status = "completed" ∨ resp.status = "failed" then
            applyListJobs
              { s1 with activeTimers := clearTimer s1.activeTimers f.timerId
                        pollingInterval := none }
              jobsResp
          else s1
  | .pollFail i => { s with inFlight := s.inFlight.eraseIdx i }
  | .refreshOk jf => { s with recentJobs := jf.getD [] }
  | .refreshFail => s

/-- One event on the event loop followed by React's re-render: the polling
effect re-runs exactly when its dependency array `[jobId, executionMode]`
changed (shallow comparison, as React does). -/
def step (s : DCState) (e : Event) : DCState :=
  if ((rawStep s e).jobId, (rawStep s e).executionMode) = (s.jobId, s.executionMode) then
    rawStep s e
  else
    runPollingEffect (rawStep s e)

/-- Run a list of events from a state. -/
def run (es : List Event) (s : DCState) : DCState :=
  es.foldl step s

/-! ## Invariants of the timer machinery -/

@[simp] theorem applyListJobs_activeTimers (s : DCState) (r : Option (Option (List JobSummary))) :
    (applyListJobs s r).activeTimers = s.activeTimers := by
  unfold applyListJobs; split <;> rfl

@[simp] theorem applyListJobs_effectCleanup (s : DCState) (r : Option (Option (List JobSummary))) :
    (applyListJobs s r).effectCleanup = s.effectCleanup := by
  unfold applyListJobs; split <;> rfl

@[simp] theorem applyListJobs_jobId (s : DCState) (r : Option (Option (List JobSummary))) :
    (applyListJobs s r).jobId = s.jobId := by
  unfold applyListJobs; split <;> rfl

@[simp] theorem applyListJobs_executionMode (s : DCState) (r : Option (Option (List JobSummary))) :
    (applyListJobs s r).executionMode = s.executionMode := by
  unfold applyListJobs; split <;> rfl

@[simp] theorem applyListJobs_jobStatus (s : DCState) (r : Option (Option (List JobSummary))) :
    (applyListJobs s r).jobStatus = s.jobStatus := by
  unfold applyListJobs; split <;> rfl

@[simp] theorem applyListJobs_pollingInterval (s : DCState) (r : Option (Option (List JobSummary))) :
    (applyListJobs s r).pollingInterval = s.pollingInterval := by
  unfold applyListJobs; split <;> rfl

/-- The timer bookkeeping is coherent: at most the one timer created by the
current run of the polling effect is live, and its handle is the one the
current cleanup closure holds. -/
def TimersOk (s : DCState) : Prop :=
  match s.effectCleanup with
  | none => s.activeTimers = []
  | some c => s.activeTimers = [] ∨ ∃ tm : Timer, tm.id = c ∧ s.activeTimers = [tm]

/-- Every live timer was armed by the current polling-effect run: its callback
closure captured the currently watched job id, it exists only in async
execution mode, and it fires every 3000 ms. -/
def PollInv (s : DCState) : Prop :=
  TimersOk s ∧ ∀ tm ∈ s.activeTimers,
    s.jobId = some tm.capturedJobId ∧ s.executionMode = Mode.async ∧ tm.periodMs = 3000

theorem afterCleanup_eq_nil (s : DCState) (h : TimersOk s) : afterCleanup s = [] := by
  unfold TimersOk at h
  unfold afterCleanup
  rcases hc : s.effectCleanup with _ | c
  · simp only [hc] at h ⊢
    exact h
  · simp only [hc] at h ⊢
    rcases h with h | ⟨tm, hid, hl⟩
    · rw [h]; rfl
    · rw [hl]
      simp [clearTimer, hid]

theorem runPollingEffect_inv (s : DCState) (h : TimersOk s) : PollInv (runPollingEffect s) := by
  have hnil := afterCleanup_eq_nil s h
  unfold runPollingEffect
  split
  · rename_i jid hj hm
    constructor
    · unfold TimersOk
      right
      exact ⟨{ id := s.nextTimerId, capturedJobId := jid, periodMs := 3000 }, rfl,
        by simp [hnil]⟩
    · intro tm htm
      rw [hnil] at htm
      simp only [List.nil_append, List.mem_singleton] at htm
      subst htm
      exact ⟨hj, hm, rfl⟩
  · constructor
    · unfold TimersOk
      exact hnil
    · intro tm htm
      rw [hnil] at htm
      exact absurd htm (List.not_mem_nil tm)

theorem rawStep_frame (s : DCState) (e : Event) :
    List.Sublist (rawStep s e).activeTimers s.activeTimers ∧
    (rawStep s e).effectCleanup = s.effectCleanup := by
  cases e <;> unfold rawStep <;> (repeat' split) <;> simp_all [clearTimer]

theorem timersOk_rawStep (s : DCState) (e : Event) (h : TimersOk s) : TimersOk (rawStep s e) := by
  have hf := rawStep_frame s e
  unfold TimersOk at h ⊢
  rw [hf.2]
  rcases hc : s.effectCleanup with _ | c
  · simp only [hc] at h ⊢
    rw [h] at hf
    exact List.sublist_nil.mp hf.1
  · simp only [hc] at h ⊢
    rcases h with h | ⟨tm, hid, hl⟩
    · left
      rw [h] at hf
      exact List.sublist_nil.mp hf.1
    · rw [hl] at hf
      rcases List.sublist_singleton.mp hf.1 with h2 | h2
      · left; exact h2
      · right; exact ⟨tm, hid, h2⟩

theorem step_inv (s : DCState) (e : Event) (h : PollInv s) : PollInv (step s e) := by
  have hf := rawStep_frame s e
  unfold step
  split
  · rename_i hdep
    rw [Prod.mk.injEq] at hdep
    refine ⟨timersOk_rawStep s e h.1, fun tm hm => ?_⟩
    obtain ⟨h1, h2, h3⟩ := h.2 tm (hf.1.subset hm)
    exact ⟨by rw [hdep.1]; exact h1, by rw [hdep.2]; exact h2, h3⟩
  · exact runPollingEffect_inv _ (timersOk_rawStep s e h.1)

theorem pollInv_init : PollInv initState := by
  constructor
  · exact rfl
  · intro tm hm
    exact absurd hm (List.not_mem_nil tm)

theorem run_inv (es : List Event) (s : DCState) (h : PollInv s) : PollInv (run es s) := by
  induction es generalizing s with
  | nil => exact h
  | cons e es ih => exact ih (step s e) (step_inv s e h)

theorem activeTimers_length_le_one (s : DCState) (h : PollInv s) :
    s.activeTimers.length ≤ 1 := by
  obtain ⟨ht, _⟩ := h
  unfold TimersOk at ht
  rcases hc : s.effectCleanup with _ | c
  · simp only [hc] at ht
    rw [ht]
    simp
  · simp only [hc] at ht
    rcases ht with h | ⟨tm, _, hl⟩
    · rw [h]; simp
    · rw [hl]; simp

/-- A `setInterval` callback can fire only while its timer is live: with no
live timer, a tick changes nothing and in particular issues no fetch. -/
theorem tick_noop_of_no_timer (s : DCState) (h : s.activeTimers = []) (t : Nat) :
    step s (Event.tick t) = s := by
  have hr : rawStep s (Event.tick t) = s := by
    unfold rawStep
    rw [h]
    rfl
  unfold step
  rw [hr, if_pos rfl]

/-! ## Concrete scenarios -/

/-- A running-status poll response for job `j`. -/
def runningStatus (j : String) : JobStatus := { job_id := j, status := "running" }

/-- A completed-status poll response for job `j`. -/
def completedStatus (j : String) : JobStatus := { job_id := j, status := "completed" }

/-- A completed entry of the job-history list for job `j`. -/
def completedSummary (j : String) : JobSummary :=
  { job_id := j, status := "completed", started_at := "2026-01-01T00:00:00Z" }

/-- Start an async ingestion run for job `j`: test the connection, choose the
async execution mode, submit the form, and let `runIngestionAsync` resolve. -/
def startAsync (j : String) : List Event :=
  [Event.testConn true, Event.setMode Mode.async, Event.ingestStart, Event.ingestAsyncOk j]

/-- Interleaved watches of jobs a, b, c (each `viewJobDetails` call moves the
watched `jobId`, re-running the polling effect) in async mode. -/
def watchThreeTrace : List Event :=
  [Event.setMode Mode.async,
   Event.viewJob "a" (runningStatus "a"),
   Event.viewJob "b" (runningStatus "b"),
   Event.viewJob "c" (runningStatus "c")]

/-- C1: for every sequence of watch/unwatch/startIngestion operations (here:
every event sequence whatsoever), at most one polling timer is live at any
instant; and after interleaved watches of jobs a, b, c only c's timer remains,
the earlier jobs' timers having been cleared by the effect's cleanup. -/
theorem at_most_one_poll_handle :
    (∀ es : List Event, (run es initState).activeTimers.length ≤ 1) ∧
    (run watchThreeTrace initState).activeTimers.map Timer.capturedJobId = ["c"] := by
  refine ⟨?_, by decide⟩
  intro es
  exact activeTimers_length_le_one _ (run_inv es initState pollInv_init)

/-- Async run of job-42 polled running, running, completed, each fetch
resolving before the next tick. -/
def terminalTrace : List Event :=
  startAsync "job-42" ++
  [Event.tick 0, Event.pollOk 0 (runningStatus "job-42") none,
   Event.tick 0, Event.pollOk 0 (runningStatus "job-42") none,
   Event.tick 0, Event.pollOk 0 (completedStatus "job-42")
     (some (some [completedSummary "job-42"]))]

/-- C2: with polls returning running, running, completed, exactly 3 status
fetches are issued and the poll handle is released at the 3rd
(`clearInterval` plus `setPollingInterval(null)`); with no live timer a tick
is a no-op, so no 4th poll can ever fire for that job without a new watch
(last conjunct: this holds from any handle-free state). -/
theorem terminal_status_stops_polling :
    (run terminalTrace initState).pollCount = 3 ∧
    (run terminalTrace initState).activeTimers = [] ∧
    (run terminalTrace initState).pollingInterval = none ∧
    (∀ t : Nat, step (run terminalTrace initState) (Event.tick t) =
        run terminalTrace initState) ∧
    (∀ s : DCState, s.activeTimers = [] → ∀ t : Nat, step s (Event.tick t) = s) := by
  refine ⟨by decide, by decide, by decide, ?_, tick_noop_of_no_timer⟩
  intro t
  exact tick_noop_of_no_timer _ (by decide) t

/-- The one-shot response shown when watching job-a; also job-a's late poll
response, in flight when the watch switches to job-b. -/
def statusA : JobStatus := runningStatus "job-a"

/-- The one-shot response shown when the watch switches to job-b. -/
def statusB : JobStatus := runningStatus "job-b"

/-- watch(job-a); its interval fires and the status fetch is in flight;
watch(job-b) before it resolves. -/
def staleTrace : List Event :=
  [Event.setMode Mode.async, Event.viewJob "job-a" statusA, Event.tick 0,
   Event.viewJob "job-b" statusB]

/-- C3 counterexample: after the watch has moved to job-b (snapshot shows
job-b), job-a's still-in-flight poll resolves and its `setJobStatus`
overwrites the displayed snapshot with job-a's data — the claimed guarantee
that a late response for the old job never mutates the snapshot is false. -/
theorem stale_response_mutates_snapshot :
    (run staleTrace initState).jobId = some "job-b" ∧
    (run staleTrace initState).jobStatus = some statusB ∧
    (run staleTrace initState).inFlight = [{ timerId := 0, jobId := "job-a" }] ∧
    (run (staleTrace ++ [Event.pollOk 0 statusA none]) initState).jobId = some "job-b" ∧
    (run (staleTrace ++ [Event.pollOk 0 statusA none]) initState).jobStatus = some statusA ∧
    statusA ≠ statusB := by decide

/-- C3 amended: switching the watch synchronously clears the old job's timer —
every live timer belongs to the currently watched job id, so no further poll
is ever scheduled for the old job — but a status fetch already in flight at
the switch is not discarded: when it resolves, its `setJobStatus` still
overwrites the displayed snapshot once (the interval callback has no
stale-response guard). -/
theorem watch_switch_clears_timer_not_inflight :
    (∀ es : List Event, ∀ tm ∈ (run es initState).activeTimers,
        (run es initState).jobId = some tm.capturedJobId) ∧
    (run staleTrace initState).activeTimers.map Timer.capturedJobId = ["job-b"] ∧
    (run (staleTrace ++ [Event.pollOk 0 statusA none]) initState).jobStatus =
      some statusA := by
  refine ⟨?_, by decide, by decide⟩
  intro es tm hm
  exact ((run_inv es initState pollInv_init).2 tm hm).1

/-- C4 counterexample: at the instant an async watch begins (watched job id
set, timer armed), no status fetch has been issued or is in flight and no
snapshot exists — the effect only calls `setInterval`, so nothing is fetched
before the first 3000 ms interval elapses. -/
theorem no_fetch_before_first_interval :
    (run (startAsync "job-42") initState).jobId = some "job-42" ∧
    (run (startAsync "job-42") initState).activeTimers =
      [{ id := 0, capturedJobId := "job-42", periodMs := 3000 }] ∧
    (run (startAsync "job-42") initState).pollCount = 0 ∧
    (run (startAsync "job-42") initState).inFlight = [] ∧
    (run (startAsync "job-42") initState).jobStatus = none := by decide

/-- C4 amended: beginning a watch issues no immediate status fetch: right
after the async start resolves the poll count is 0 and no request is in
flight; the first status fetch goes out only when the armed timer's first
3000 ms period elapses. -/
theorem first_fetch_only_at_first_tick :
    (run (startAsync "job-42") initState).pollCount = 0 ∧
    (run (startAsync "job-42") initState).jobStatus = none ∧
    (run (startAsync "job-42") initState).activeTimers.map Timer.periodMs = [3000] ∧
    (run (startAsync "job-42" ++ [Event.tick 0]) initState).pollCount = 1 ∧
    (run (startAsync "job-42" ++ [Event.tick 0]) initState).inFlight =
      [{ timerId := 0, jobId := "job-42" }] := by decide

/-- Async run of job-5: poll 1 resolves running, poll 2 rejects (network
error), poll 3 resolves completed. -/
def resilientTrace : List Event :=
  startAsync "job-5" ++
  [Event.tick 0, Event.pollOk 0 (runningStatus "job-5") none,
   Event.tick 0, Event.pollFail 0,
   Event.tick 0, Event.pollOk 0 (completedStatus "job-5")
     (some (some [completedSummary "job-5"]))]

/-- C5: a failed poll does not abort the watch: after the rejected 2nd fetch
the timer is still armed, the watched job id and the previously displayed
snapshot are unchanged, and the 3rd poll still fires and lands the terminal
state — 3 poll attempts in total, ending completed. -/
theorem transient_failure_keeps_watch :
    (run (resilientTrace.take 8) initState).activeTimers =
      [{ id := 0, capturedJobId := "job-5", periodMs := 3000 }] ∧
    (run (resilientTrace.take 8) initState).jobId = some "job-5" ∧
    (run (resilientTrace.take 8) initState).jobStatus = some (runningStatus "job-5") ∧
    (run (resilientTrace.take 8) initState).pollCount = 2 ∧
    (run resilientTrace initState).pollCount = 3 ∧
    (run resilientTrace initState).jobStatus = some (completedStatus "job-5") ∧
    (run resilientTrace initState).activeTimers = [] := by decide


/-- A poll response whose status lies outside the enumerated set. -/
def weirdStatus : JobStatus := { job_id := "job-6", status := "weird" }

/-- Async run of job-6 whose first poll returns the unknown status "weird". -/
def weirdTrace : List Event :=
  startAsync "job-6" ++ [Event.tick 0, Event.pollOk 0 weirdStatus none]

/-- C6 counterexample: a poll returning status "weird" is stored raw in the
snapshot (no error surfaced, `error` stays `none`, the status is not turned
into "failed"), the poll handle is NOT released (`pollingInterval` still set,
timer still live), and a further tick issues another poll — the tracker keeps
polling, contradicting the claimed surface-as-failed-and-release behavior. -/
theorem unknown_status_keeps_polling :
    (run weirdTrace initState).jobStatus = some weirdStatus ∧
    weirdStatus.status = "weird" ∧
    weirdStatus.error = none ∧
    (run weirdTrace initState).activeTimers =
      [{ id := 0, capturedJobId := "job-6", periodMs := 3000 }] ∧
    (run weirdTrace initState).pollingInterval = some 0 ∧
    (run (weirdTrace ++ [Event.tick 0]) initState).pollCount = 2 := by decide

/-- C6 amended: a poll response whose status is anything other than
"completed" or "failed" — including a value outside the enumerated set — is
stored verbatim in the snapshot and treated as non-terminal: the live timers
and the stored poll handle are unchanged, so polling simply continues; no
failed-equivalent error is synthesized. -/
theorem nonterminal_status_keeps_handle (s : DCState) (f : Flight) (resp : JobStatus)
    (jr : Option (Option (List JobSummary)))
    (hf : s.inFlight[0]? = some f)
    (hc : resp.status ≠ "completed") (hd : resp.status ≠ "failed") :
    (step s (Event.pollOk 0 resp jr)).jobStatus = some resp ∧
    (step s (Event.pollOk 0 resp jr)).activeTimers = s.activeTimers ∧
    (step s (Event.pollOk 0 resp jr)).pollingInterval = s.pollingInterval := by
  have hr : rawStep s (Event.pollOk 0 resp jr) =
      { s with inFlight := s.inFlight.eraseIdx 0, jobStatus := some resp } := by
    simp only [rawStep]
    rw [hf]
    split
    · rename_i hnone
      exact Option.noConfusion hnone
    · rw [if_neg (by simp [hc, hd])]
  unfold step
  rw [hr, if_pos rfl]
  exact ⟨rfl, rfl, rfl⟩

/-- C6 witness: the amended statement applied at the concrete unknown-status
poll of `weirdTrace`. -/
theorem nonterminal_status_keeps_handle_app :
    (step (run (weirdTrace.take 5) initState)
        (Event.pollOk 0 weirdStatus none)).jobStatus = some weirdStatus ∧
    (step (run (weirdTrace.take 5) initState)
        (Event.pollOk 0 weirdStatus none)).activeTimers =
      (run (weirdTrace.take 5) initState).activeTimers ∧
    (step (run (weirdTrace.take 5) initState)
        (Event.pollOk 0 weirdStatus none)).pollingInterval =
      (run (weirdTrace.take 5) initState).pollingInterval :=
  nonterminal_status_keeps_handle _ { timerId := 0, jobId := "job-6" } weirdStatus none
    (by decide) (by decide) (by decide)

/-- C7: a poll observing a terminal status releases the handle and refreshes
Job History: `loadRecentJobs` replaces `recentJobs` with exactly the list the
backend returned (full replacement — no merge with the previous list, no
re-sorting), and neither the poll nor the refresh touches the watched job id
or the execution mode. -/
theorem terminal_poll_refreshes_history (s : DCState) (f : Flight) (resp : JobStatus)
    (jobs : List JobSummary)
    (hf : s.inFlight[0]? = some f)
    (ht : resp.status = "completed" ∨ resp.status = "failed") :
    (step s (Event.pollOk 0 resp (some (some jobs)))).recentJobs = jobs ∧
    (step s (Event.pollOk 0 resp (some (some jobs)))).jobId = s.jobId ∧
    (step s (Event.pollOk 0 resp (some (some jobs)))).executionMode = s.executionMode ∧
    (step s (Event.pollOk 0 resp (some (some jobs)))).jobStatus = some resp ∧
    (step s (Event.pollOk 0 resp (some (some jobs)))).activeTimers =
      clearTimer s.activeTimers f.timerId ∧
    (step s (Event.pollOk 0 resp (some (some jobs)))).pollingInterval = none := by
  have hr : rawStep s (Event.pollOk 0 resp (some (some jobs))) =
      { s with inFlight := s.inFlight.eraseIdx 0, jobStatus := some resp,
               activeTimers := clearTimer s.activeTimers f.timerId,
               pollingInterval := none, recentJobs := jobs } := by
    simp only [rawStep]
    rw [hf]
    split
    · rename_i hnone
      exact Option.noConfusion hnone
    · rename_i f1 hsome
      injection hsome with h1
      subst h1
      rw [if_pos ht]
      rfl
  unfold step
  rw [hr, if_pos rfl]
  exact ⟨rfl, rfl, rfl, rfl, rfl, rfl⟩

/-- C7 witness: the theorem applied at `terminalTrace`'s final poll. -/
theorem terminal_poll_refreshes_history_app :
    (step (run (terminalTrace.take 9) initState)
        (Event.pollOk 0 (completedStatus "job-42")
          (some (some [completedSummary "job-42"])))).recentJobs =
      [completedSummary "job-42"] :=
  (terminal_poll_refreshes_history _ { timerId := 0, jobId := "job-42" }
    (completedStatus "job-42") [completedSummary "job-42"]
    (by decide) (Or.inl rfl)).1

/-- The completed job selected from the History tab. -/
def doneStatus : JobStatus := completedStatus "job-7"

/-- C8 counterexample: with execution mode 'async', selecting a completed job
from History (`viewJobDetails`) sets the shared `jobId`, so the polling
effect arms a timer for it, and that timer's first tick issues a status
poll — the completed job IS polled, contradicting the claim that `viewJob`
never arms a timer unless a watch is explicitly requested. -/
theorem view_completed_job_arms_timer :
    (run [Event.setMode Mode.async, Event.viewJob "job-7" doneStatus]
        initState).activeTimers =
      [{ id := 0, capturedJobId := "job-7", periodMs := 3000 }] ∧
    (run [Event.setMode Mode.async, Event.viewJob "job-7" doneStatus, Event.tick 0]
        initState).pollCount = 1 := by decide

/-- C8 amended: `viewJobDetails` performs a one-shot fetch that sets the
display snapshot; in the default sync execution mode no timer is armed and
nothing is ever polled, but because it also sets the shared `jobId`, in async
mode the polling effect arms a timer even for a completed job — that timer's
single poll observes the terminal status and is then cleared. -/
theorem view_job_details_one_shot_sync :
    (run [Event.viewJob "job-7" doneStatus] initState).jobStatus = some doneStatus ∧
    (run [Event.viewJob "job-7" doneStatus] initState).jobId = some "job-7" ∧
    (run [Event.viewJob "job-7" doneStatus] initState).activeTimers = [] ∧
    (run [Event.viewJob "job-7" doneStatus] initState).pollCount = 0 ∧
    (run [Event.setMode Mode.async, Event.viewJob "job-7" doneStatus, Event.tick 0,
          Event.pollOk 0 doneStatus none] initState).activeTimers = [] ∧
    (run [Event.setMode Mode.async, Event.viewJob "job-7" doneStatus, Event.tick 0,
          Event.pollOk 0 doneStatus none] initState).pollCount = 1 := by decide

/-- An async watch of job-a with a running snapshot on display. -/
def watchedATrace : List Event :=
  startAsync "job-a" ++ [Event.tick 0, Event.pollOk 0 (runningStatus "job-a") none]

/-- While watching job-a, a new ingestion is submitted and its start request
fails. -/
def failedIngestTrace : List Event :=
  watchedATrace ++ [Event.ingestStart, Event.ingestFail "network down"]

/-- C9 counterexample: `handleIngest` runs `setJobStatus(null); setJobId(null)`
before the start request goes out, so when the request fails the prior watch
state is NOT left untouched: the previously watched job id and its snapshot
are gone. -/
theorem failed_ingest_clears_prior_watch :
    (run watchedATrace initState).jobId = some "job-a" ∧
    (run watchedATrace initState).jobStatus = some (runningStatus "job-a") ∧
    (run failedIngestTrace initState).jobId = none ∧
    (run failedIngestTrace initState).jobStatus = none := by decide

/-- C9 amended: when the start request fails, the error is surfaced through
`ingestionResult` and no poll loop runs (no live timer, no in-flight fetch,
poll count unchanged) — but the prior watch state is cleared, not preserved:
`jobId` and `jobStatus` were reset to null before the request was issued. -/
theorem failed_ingest_surfaces_error_no_poll :
    (run failedIngestTrace initState).ingestionResult =
      some (ingestFailResult "network down") ∧
    (run failedIngestTrace initState).activeTimers = [] ∧
    (run failedIngestTrace initState).inFlight = [] ∧
    (run failedIngestTrace initState).pollCount = (run watchedATrace initState).pollCount ∧
    (run failedIngestTrace initState).jobId = none ∧
    (run failedIngestTrace initState).jobStatus = none := by decide

/-- The stats returned by a synchronous ingestion run. -/
def sampleStats : Stats :=
  { databases_processed := 1, tables_processed := 10, columns_processed := 120,
    duration_seconds := 42 }

/-- A complete synchronous ingestion run: test the connection (mode stays the
default 'sync'), submit, and let `runIngestionSync` resolve. -/
def syncRunTrace : List Event :=
  [Event.testConn true, Event.ingestStart,
   Event.ingestSyncOk "Successfully ingested metadata" sampleStats]

/-- C10: a polling timer exists only in async mode (first conjunct: in any
reachable state whose execution mode is 'sync' there is no live timer), and a
synchronous ingestion run arms no handle and issues no status poll — its
result is applied directly from the single start request's response. -/
theorem sync_mode_never_polls :
    (∀ es : List Event, (run es initState).executionMode = Mode.sync →
        (run es initState).activeTimers = []) ∧
    (run syncRunTrace initState).activeTimers = [] ∧
    (run syncRunTrace initState).pollCount = 0 ∧
    (run syncRunTrace initState).inFlight = [] ∧
    (run syncRunTrace initState).ingestionResult =
      some (syncOkResult "Successfully ingested metadata" sampleStats) := by
  refine ⟨?_, by decide, by decide, by decide, by decide⟩
  intro es hmode
  rcases hat : (run es initState).activeTimers with _ | ⟨tm, l⟩
  · rfl
  · have hasync := ((run_inv es initState pollInv_init).2 tm
      (by rw [hat]; exact List.mem_cons_self tm l)).2.1
    rw [hmode] at hasync
    exact absurd hasync (by decide)
